import Mathlib

/-!
Shallow embedding of `app.py` (aws_sql_editor): a Flask gateway exposing SQL
execution (JSON and CSV), database management and health-check endpoints.
Python strings are modelled as `List Char`; the external database-access
module `aws_db_connection` is modelled as an oracle structure whose methods
either return a value or raise (an `Except` error carrying `str(e)`).
Wall-clock timing is not modelled: the measured elapsed milliseconds are
taken from the oracle and passed through unchanged.
-/

/-- Python strings, modelled as lists of characters. -/
abbrev Str := List Char

/-- The whitespace characters removed by Python `str.strip()` (ASCII set). -/
def pyIsSpace (c : Char) : Bool :=
  c = ' ' || c = '\t' || c = '\n' || c = '\r' || c = '\x0b' || c = '\x0c'

/-- Python `s.strip()`: drop leading and trailing whitespace. -/
def pyStrip (s : Str) : Str :=
  ((s.dropWhile pyIsSpace).reverse.dropWhile pyIsSpace).reverse

/-- A Python value appearing as a SQL result cell: either `None`, or any other
object carrying its `str()` rendering. -/
inductive PyVal where
  | none
  | obj (s : Str)
deriving DecidableEq, Repr

/-- `app.py` line 107: `s = "" if v is None else str(v)`. -/
def cellStr (v : PyVal) : Str :=
  match v with
  | .none => []
  | .obj s => s

/-- `app.py` lines 106-108, the per-cell `clip` helper of `api_sql`:
stringify (`cellStr`), then truncate to 2000 characters plus an ellipsis
when longer. -/
def clip (v : PyVal) : Str :=
  if (cellStr v).length ≤ 2000 then cellStr v else (cellStr v).take 2000 ++ ['…']

/-- The JSON body of a POST request, as the handlers see it through
`request.get_json(silent=True)` and `payload.get(k)`:
`badJson` = absent body or invalid JSON (`get_json` yields `None`, replaced
by `{}`); `missingField` = object without the key; `nullField` = key present
with JSON `null` (`payload.get` yields `None` in both cases). -/
inductive ReqBody where
  | badJson
  | missingField
  | nullField
  | field (s : Str)
deriving DecidableEq, Repr

/-- `(payload.get(k) or "")`: `None` and the empty string are falsy. -/
def reqStr : ReqBody → Str
  | .badJson => []
  | .missingField => []
  | .nullField => []
  | .field s => if s = [] then [] else s

/-- `app.py` lines 103/121: `query = (payload.get("query") or "").strip()`.
This is the exact string later handed to `cur.execute` (line 24) when the
request is accepted. -/
def effectiveQuery (b : ReqBody) : Str := pyStrip (reqStr b)

/-- The external database-access collaborator (`aws_db` module): each method
either returns a value or raises, modelled by `Except Str` carrying `str(e)`.
`execCursor` models one `cur.execute(q)` round trip: `cur.description`
(`Option`, `none` for statements producing no columns), `cur.fetchall()` and
`cur.rowcount`.  `elapsedMs` is the wall-clock duration `_exec` would
measure, supplied by the environment. -/
structure Collaborator where
  listDatabases : Except Str (List Str)
  createDatabase : Str → Except Str Unit
  connectTo : Str → Except Str Unit
  listTableSchemas : Str → Except Str (List (Str × Str))
  execCursor : Str → Except Str (Option (List Str) × List (List PyVal) × Int)
  execute : Str → Except Str Unit
  elapsedMs : Rat

/-- Python truthiness of `cur.description` (a list of column tuples or `None`). -/
def descTruthy : Option (List Str) → Bool
  | Option.none => false
  | Option.some l => !l.isEmpty

def noQueryMsg : Str := "No query provided.".toList

def dbNameMsg : Str := "Database name is required.".toList

/-- `_exec` (`app.py` lines 17-31): reject blank queries with
`BadRequest("No query provided.")`, run the cursor, shape
`(cols, rows, rowcount, duration_ms)`; any exception becomes
`BadRequest(str(e))`. -/
def pyExec (c : Collaborator) (query : Str) :
    Except Str (List Str × List (List PyVal) × Int × Rat) :=
  if query.isEmpty || (pyStrip query).isEmpty then .error noQueryMsg
  else
    match c.execCursor query with
    | .error e => .error e
    | .ok (desc, fetched, rowcount) =>
        let cols := desc.getD []
        let rows := if descTruthy desc then fetched else []
        .ok (cols, rows, rowcount, c.elapsedMs)

/-- JSON documents, as produced by Flask `jsonify` / dict returns. -/
inductive Json where
  | null
  | bool (b : Bool)
  | int (i : Int)
  | num (q : Rat)
  | str (s : Str)
  | arr (elts : List Json)
  | obj (fields : List (Str × Json))

/-- The body/headers of a `send_file` response (`app.py` lines 131-136). -/
structure FileResponse where
  body : Str
  mimetype : Str
  asAttachment : Bool
  downloadName : Str
deriving DecidableEq, Repr

/-- An HTTP response of the app: the rendered index page, a JSON payload with
a status code, a raised `werkzeug` `BadRequest` (status 400), or a file
download (status 200). -/
inductive HttpResponse where
  | page (currentDb : Str)
  | json (j : Json) (status : Nat)
  | badRequest (msg : Str)
  | file (f : FileResponse)

/-- HTTP status code of a response. -/
def statusOf : HttpResponse → Nat
  | .page _ => 200
  | .json _ s => s
  | .badRequest _ => 400
  | .file _ => 200

def errJson (e : Str) : Json := .obj [("error".toList, .str e)]

/-- `api_list_databases` (`app.py` lines 41-47). -/
def api_list_databases (c : Collaborator) (st : Str) : HttpResponse × Str :=
  match c.listDatabases with
  | .error e => (.json (errJson e) 400, st)
  | .ok names =>
      (.json (.obj [("databases".toList, .arr (names.map .str)),
                    ("current".toList, .str st)]) 200, st)

/-- `api_create_database` (`app.py` lines 50-60). -/
def api_create_database (c : Collaborator) (st : Str) (b : ReqBody) :
    HttpResponse × Str :=
  let dbname := pyStrip (reqStr b)
  if dbname.isEmpty then (.badRequest dbNameMsg, st)
  else
    match c.createDatabase dbname with
    | .error e => (.json (errJson e) 400, st)
    | .ok _ =>
        (.json (.obj [("ok".toList, .bool true),
                      ("created".toList, .str dbname)]) 200, st)

/-- `api_connect_to` (`app.py` lines 63-75): on success the global
`_current_db` is set to the trimmed name before being echoed back. -/
def api_connect_to (c : Collaborator) (st : Str) (b : ReqBody) :
    HttpResponse × Str :=
  let dbname := pyStrip (reqStr b)
  if dbname.isEmpty then (.badRequest dbNameMsg, st)
  else
    match c.connectTo dbname with
    | .error e => (.json (errJson e) 400, st)
    | .ok _ =>
        (.json (.obj [("ok".toList, .bool true),
                      ("current".toList, .str dbname)]) 200, dbname)

/-- Python string comparison `a < b` (code-point lexicographic). -/
def strLt : Str → Str → Bool
  | _, [] => false
  | [], _ :: _ => true
  | a :: as, b :: bs => if a < b then true else if a = b then strLt as bs else false

/-- Python `a <= b` on strings, the order `sorted` uses via its key. -/
def strLe (a b : Str) : Bool := strLt a b || a = b

/-- Comparison used by `sorted(mapping.items(), key=lambda kv: kv[0])`. -/
def itemLe (a b : Str × Str) : Bool := strLe a.1 b.1

/-- `api_table_schemas` (`app.py` lines 79-96): the collaborator's mapping
(a Python dict, modelled as an association list with distinct keys) is sorted
by table name; `sorted` is a stable merge sort. -/
def api_table_schemas (c : Collaborator) (st : Str) (schemaParam : Option Str) :
    HttpResponse × Str :=
  let schema := schemaParam.getD ("public".toList)
  match c.listTableSchemas schema with
  | .error e => (.json (errJson e) 400, st)
  | .ok mapping =>
      let ordered := mapping.mergeSort itemLe
      (.json (.obj [("schema".toList, .str schema),
                    ("tables".toList, .arr (ordered.map fun p => .str p.1)),
                    ("ddl".toList, .obj (ordered.map fun p => (p.1, .str p.2)))]) 200,
       st)

/-- `api_sql` (`app.py` lines 100-115): execute, then clip every cell. -/
def api_sql (c : Collaborator) (st : Str) (b : ReqBody) : HttpResponse × Str :=
  match pyExec c (effectiveQuery b) with
  | .error e => (.badRequest e, st)
  | .ok (cols, rows, rowcount, duration_ms) =>
      (.json (.obj [("columns".toList, .arr (cols.map .str)),
                    ("rows".toList,
                     .arr (rows.map fun r => .arr (r.map fun v => .str (clip v)))),
                    ("rowcount".toList, .int rowcount),
                    ("duration_ms".toList, .num duration_ms)]) 200, st)

/-- A character the Python `csv` default dialect must quote around:
the delimiter, the quote character, or a line-terminator character. -/
def csvSpecial (c : Char) : Bool := c = ',' || c = '"' || c = '\r' || c = '\n'

/-- Double every quote character (`doublequote=True`). -/
def csvEscape : Str → Str
  | [] => []
  | c :: cs => if c = '"' then '"' :: '"' :: csvEscape cs else c :: csvEscape cs

/-- One field as written by `csv.writer` with `QUOTE_MINIMAL`: quoted (with
doubled inner quotes) exactly when it holds a special character. -/
def csvField (s : Str) : Str :=
  if s.any csvSpecial then '"' :: (csvEscape s ++ ['"']) else s

/-- One record as written by `csv.writer`: comma-joined fields plus the
default `\r\n` terminator; a record consisting of a single empty field is
written as `""` (CPython `_csv.c` quotes it so the record is not blank). -/
def csvRecord (fields : List Str) : Str :=
  let r := List.intercalate [','] (fields.map csvField)
  (if !fields.isEmpty && r.isEmpty then ['"', '"'] else r) ++ ['\r', '\n']

/-- The CSV document `api_sql_csv` builds (`app.py` lines 125-129): header row
only when `cols` is truthy, then one record per result row, cells stringified
by the `csv` module (`None` becomes the empty field). -/
def csvBody (cols : List Str) (rows : List (List PyVal)) : Str :=
  (if !cols.isEmpty then csvRecord cols else []) ++
    (rows.map fun r => csvRecord (r.map cellStr)).flatten

/-- `api_sql_csv` (`app.py` lines 118-136). -/
def api_sql_csv (c : Collaborator) (st : Str) (b : ReqBody) : HttpResponse × Str :=
  match pyExec c (effectiveQuery b) with
  | .error e => (.badRequest e, st)
  | .ok (cols, rows, _, _) =>
      (.file { body := csvBody cols rows
               mimetype := "text/csv".toList
               asAttachment := true
               downloadName := "query_results.csv".toList }, st)

/-- `healthz` (`app.py` lines 139-145). -/
def healthz (c : Collaborator) (st : Str) : HttpResponse × Str :=
  match c.execute ("SELECT 1".toList) with
  | .ok _ => (.json (.obj [("ok".toList, .bool true), ("db".toList, .str st)]) 200, st)
  | .error e =>
      (.json (.obj [("ok".toList, .bool false), ("error".toList, .str e)]) 500, st)

/-- The routes of the app, with the request data each handler reads. -/
inductive Req where
  | index
  | listDatabases
  | createDatabase (b : ReqBody)
  | connectTo (b : ReqBody)
  | tableSchemas (schemaParam : Option Str)
  | sql (b : ReqBody)
  | sqlCsv (b : ReqBody)
  | health
deriving DecidableEq, Repr

/-- Dispatch one request against the process state `_current_db`. -/
def runReq (c : Collaborator) (st : Str) : Req → HttpResponse × Str
  | .index => (.page st, st)
  | .listDatabases => api_list_databases c st
  | .createDatabase b => api_create_database c st b
  | .connectTo b => api_connect_to c st b
  | .tableSchemas p => api_table_schemas c st p
  | .sql b => api_sql c st b
  | .sqlCsv b => api_sql_csv c st b
  | .health => healthz c st

/-- A collaborator whose every call succeeds, for concrete instantiations. -/
def collabStub : Collaborator where
  listDatabases := .ok ["postgres".toList]
  createDatabase := fun _ => .ok ()
  connectTo := fun _ => .ok ()
  listTableSchemas := fun _ => .ok []
  execCursor := fun _ => .ok (Option.some ["n".toList], [[PyVal.obj ['1']]], 1)
  execute := fun _ => .ok ()
  elapsedMs := 0

/-- A collaborator whose every call raises, for concrete instantiations. -/
def collabDown : Collaborator where
  listDatabases := .error "down".toList
  createDatabase := fun _ => .error "down".toList
  connectTo := fun _ => .error "down".toList
  listTableSchemas := fun _ => .error "down".toList
  execCursor := fun _ => .error "down".toList
  execute := fun _ => .error "down".toList
  elapsedMs := 0

/-! ### Helper lemmas: `pyStrip` -/

theorem dropWhile_head_false {α : Type} (p : α → Bool) (l : List α) {a : α}
    {t : List α} (h : l.dropWhile p = a :: t) : p a = false := by
  have hh := List.head?_dropWhile_not p l
  rw [h] at hh
  simpa using hh

theorem dropWhile_eq_self_of_head {α : Type} {p : α → Bool} {l : List α}
    (h : ∀ a t, l = a :: t → p a = false) : l.dropWhile p = l := by
  cases l with
  | nil => rfl
  | cons a t => rw [List.dropWhile_cons, h a t rfl]; simp

/-- Decomposition used below: the stripped string followed by the reversed
trailing whitespace is exactly `dropWhile` of the input. -/
theorem pyStrip_append_trailing (s : Str) :
    pyStrip s ++ ((s.dropWhile pyIsSpace).reverse.takeWhile pyIsSpace).reverse
      = s.dropWhile pyIsSpace := by
  have h2 := congrArg List.reverse
    (List.takeWhile_append_dropWhile pyIsSpace (s.dropWhile pyIsSpace).reverse)
  rw [List.reverse_append, List.reverse_reverse] at h2
  exact h2

/-- A nonempty stripped string does not start with whitespace. -/
theorem pyStrip_head_false {s : Str} {a : Char} {t : Str}
    (h : pyStrip s = a :: t) : pyIsSpace a = false := by
  have hdec := pyStrip_append_trailing s
  rw [h] at hdec
  have hmid : s.dropWhile pyIsSpace
      = a :: (t ++ ((s.dropWhile pyIsSpace).reverse.takeWhile pyIsSpace).reverse) := by
    rw [← List.cons_append]; exact hdec.symm
  exact dropWhile_head_false pyIsSpace s hmid

/-- A nonempty stripped string does not end with whitespace. -/
theorem pyStrip_getLast_false {s : Str} {a : Char}
    (h : (pyStrip s).getLast? = Option.some a) : pyIsSpace a = false := by
  have h' : ((s.dropWhile pyIsSpace).reverse.dropWhile pyIsSpace).reverse.getLast?
      = Option.some a := h
  rw [List.getLast?_reverse] at h'
  rcases hd : (s.dropWhile pyIsSpace).reverse.dropWhile pyIsSpace with _ | ⟨c, r⟩
  · rw [hd] at h'; cases h'
  · rw [hd] at h'
    have hca : c = a := by simpa using h'
    subst hca
    exact dropWhile_head_false pyIsSpace _ hd

/-- `strip` is idempotent. -/
theorem pyStrip_idem (s : Str) : pyStrip (pyStrip s) = pyStrip s := by
  rcases h : pyStrip s with _ | ⟨a, t⟩
  · rfl
  · have ha : pyIsSpace a = false := pyStrip_head_false h
    show pyStrip (a :: t) = a :: t
    unfold pyStrip
    rw [List.dropWhile_cons, ha]
    simp only [Bool.false_eq_true, if_false]
    have h2 : (a :: t).reverse.dropWhile pyIsSpace = (a :: t).reverse := by
      apply dropWhile_eq_self_of_head
      intro c r hcr
      have hc : (a :: t).getLast? = Option.some c := by
        rw [← List.head?_reverse, hcr]; rfl
      exact pyStrip_getLast_false (h ▸ hc)
    rw [h2, List.reverse_reverse]

/-- `strip` removes a whitespace prefix and suffix of the input. -/
theorem pyStrip_decomp (s : Str) :
    ∃ pre suf, s = pre ++ pyStrip s ++ suf ∧
      (∀ c ∈ pre, pyIsSpace c = true) ∧ (∀ c ∈ suf, pyIsSpace c = true) := by
  refine ⟨s.takeWhile pyIsSpace,
    ((s.dropWhile pyIsSpace).reverse.takeWhile pyIsSpace).reverse, ?_,
    fun c hc => List.mem_takeWhile_imp hc,
    fun c hc => List.mem_takeWhile_imp (List.mem_reverse.mp hc)⟩
  conv_lhs => rw [← List.takeWhile_append_dropWhile pyIsSpace s,
    ← pyStrip_append_trailing s]
  rw [List.append_assoc]

theorem reqStr_field (s : Str) : reqStr (.field s) = s := by
  rcases s with _ | ⟨c, t⟩ <;> simp [reqStr]

/-! ### Helper lemmas: `clip` -/

theorem clip_short {v : PyVal} (h : (cellStr v).length ≤ 2000) :
    clip v = cellStr v := by
  rw [clip, if_pos h]

theorem clip_long {v : PyVal} (h : 2000 < (cellStr v).length) :
    clip v = (cellStr v).take 2000 ++ ['…'] := by
  rw [clip, if_neg (by omega)]

theorem clip_length (v : PyVal) : (clip v).length ≤ 2001 := by
  rw [clip]
  split_ifs with h
  · omega
  · rw [List.length_append, List.length_take]
    simp

/-! ### Helper lemmas: `pyExec` on an accepted query -/

theorem pyExec_effectiveQuery (c : Collaborator) (b : ReqBody)
    (hq : effectiveQuery b ≠ []) :
    pyExec c (effectiveQuery b) =
      match c.execCursor (effectiveQuery b) with
      | .error e => .error e
      | .ok (desc, fetched, rowcount) =>
          .ok (desc.getD [], if descTruthy desc then fetched else [],
               rowcount, c.elapsedMs) := by
  have h1 : (effectiveQuery b).isEmpty = false := by
    simp [List.isEmpty_iff, hq]
  have h2 : (pyStrip (effectiveQuery b)).isEmpty = false := by
    have : pyStrip (effectiveQuery b) = effectiveQuery b := pyStrip_idem (reqStr b)
    rw [this]; exact h1
  rw [pyExec, h1, h2]
  rfl

theorem take_append_ellipsis (s : Str) (h : 2000 < s.length) :
    (s.take 2000 ++ ['…']).take 2000 = s.take 2000 := by
  have hlen : (s.take 2000).length = 2000 := by rw [List.length_take]; omega
  nth_rewrite 1 [← hlen]
  exact List.take_left _ _

/-- The response of `api_sql` on a request whose query is accepted and whose
execution succeeds, shared shape. -/
theorem api_sql_ok_eq (c : Collaborator) (st : Str) (b : ReqBody)
    {desc : Option (List Str)} {fetched : List (List PyVal)} {rc : Int}
    (hq : effectiveQuery b ≠ [])
    (hexec : c.execCursor (effectiveQuery b) = .ok (desc, fetched, rc)) :
    api_sql c st b =
      (.json (.obj
        [("columns".toList, .arr ((desc.getD []).map .str)),
         ("rows".toList, .arr ((if descTruthy desc then fetched else []).map
            fun r => .arr (r.map fun v => .str (clip v)))),
         ("rowcount".toList, .int rc),
         ("duration_ms".toList, .num c.elapsedMs)]) 200, st) := by
  have hp : pyExec c (effectiveQuery b)
      = .ok (desc.getD [], if descTruthy desc then fetched else [], rc, c.elapsedMs) := by
    rw [pyExec_effectiveQuery c b hq, hexec]
  simp only [api_sql, hp]

/-- C1: for every successful `/api/sql` request, the JSON `rows` are the
fetched rows with every cell stringified and clipped independently: a
stringified cell of length at most 2000 is returned unchanged, a longer one
becomes exactly its first 2000 characters followed by a single ellipsis
character, and hence no cell string in the response is longer than 2001. -/
theorem api_sql_clips_cells (c : Collaborator) (st : Str) (b : ReqBody)
    (desc : Option (List Str)) (fetched : List (List PyVal)) (rc : Int)
    (hq : effectiveQuery b ≠ [])
    (hexec : c.execCursor (effectiveQuery b) = .ok (desc, fetched, rc)) :
    api_sql c st b =
      (.json (.obj
        [("columns".toList, .arr ((desc.getD []).map .str)),
         ("rows".toList, .arr ((if descTruthy desc then fetched else []).map
            fun r => .arr (r.map fun v => .str (clip v)))),
         ("rowcount".toList, .int rc),
         ("duration_ms".toList, .num c.elapsedMs)]) 200, st) ∧
    (∀ v : PyVal,
      ((cellStr v).length ≤ 2000 → clip v = cellStr v) ∧
      (2000 < (cellStr v).length → clip v = (cellStr v).take 2000 ++ ['…']) ∧
      (clip v).length ≤ 2001) :=
  ⟨api_sql_ok_eq c st b hq hexec,
   fun v => ⟨fun h => clip_short h, fun h => clip_long h, clip_length v⟩⟩

/-- C1 witness: `SELECT 1` against a stub collaborator returning one short
cell. -/
theorem api_sql_clips_cells_witness :
    api_sql collabStub [] (.field "SELECT 1".toList) =
      (.json (.obj
        [("columns".toList, .arr [.str ['n']]),
         ("rows".toList, .arr [.arr [.str ['1']]]),
         ("rowcount".toList, .int 1),
         ("duration_ms".toList, .num 0)]) 200, []) :=
  (api_sql_clips_cells collabStub [] (.field "SELECT 1".toList)
    (Option.some [['n']]) [[PyVal.obj ['1']]] 1 (by decide) rfl).1

/-- C9: the per-cell truncation of `/api/sql` is the identity on strings of
length at most 2000 and is idempotent. -/
theorem clip_obj (s : Str) :
    clip (.obj s) = if s.length ≤ 2000 then s else s.take 2000 ++ ['…'] := rfl

theorem clip_identity_idempotent (s : Str) :
    (s.length ≤ 2000 → clip (.obj s) = s) ∧
    clip (.obj (clip (.obj s))) = clip (.obj s) := by
  constructor
  · intro h
    rw [clip_obj, if_pos h]
  · by_cases h : s.length ≤ 2000
    · have hu : clip (.obj s) = s := by rw [clip_obj, if_pos h]
      rw [hu]
      exact hu
    · have hu : clip (.obj s) = s.take 2000 ++ ['…'] := by rw [clip_obj, if_neg h]
      have hlen : ¬ (s.take 2000 ++ ['…']).length ≤ 2000 := by
        simp only [List.length_append, List.length_take, List.length_singleton]
        omega
      rw [hu, clip_obj, if_neg hlen, take_append_ellipsis s (by omega)]

/-- C9 witness: clip at a concrete short string. -/
theorem clip_identity_idempotent_witness : clip (.obj ['a']) = ['a'] :=
  (clip_identity_idempotent ['a']).1 (by decide)

/-- A collaborator returning one row holding a SQL NULL. -/
def collabNullCell : Collaborator where
  listDatabases := .ok []
  createDatabase := fun _ => .ok ()
  connectTo := fun _ => .ok ()
  listTableSchemas := fun _ => .ok []
  execCursor := fun _ => .ok (Option.some [['a']], [[PyVal.none]], 1)
  execute := fun _ => .ok ()
  elapsedMs := 0

/-- C10: in the `/api/sql` JSON response any `None` (SQL NULL) cell is
rendered as the empty string, not as the text `None` nor as JSON null. -/
theorem none_cell_empty_string (c : Collaborator) (st : Str) (b : ReqBody)
    (desc : Option (List Str)) (fetched : List (List PyVal)) (rc : Int)
    (hq : effectiveQuery b ≠ [])
    (hexec : c.execCursor (effectiveQuery b) = .ok (desc, fetched, rc)) :
    api_sql c st b =
      (.json (.obj
        [("columns".toList, .arr ((desc.getD []).map .str)),
         ("rows".toList, .arr ((if descTruthy desc then fetched else []).map
            fun r => .arr (r.map fun v => .str (clip v)))),
         ("rowcount".toList, .int rc),
         ("duration_ms".toList, .num c.elapsedMs)]) 200, st) ∧
    clip PyVal.none = [] ∧
    clip PyVal.none ≠ "None".toList ∧
    Json.str (clip PyVal.none) ≠ Json.null :=
  ⟨api_sql_ok_eq c st b hq hexec, rfl, by decide, fun h => Json.noConfusion h⟩

/-- C10 witness: a NULL cell comes back as the empty string. -/
theorem none_cell_empty_string_witness :
    api_sql collabNullCell [] (.field ['q']) =
      (.json (.obj
        [("columns".toList, .arr [.str ['a']]),
         ("rows".toList, .arr [.arr [.str []]]),
         ("rowcount".toList, .int 1),
         ("duration_ms".toList, .num 0)]) 200, []) :=
  (none_cell_empty_string collabNullCell [] (.field ['q'])
    (Option.some [['a']]) [[PyVal.none]] 1 (by decide) rfl).1

/-- Shared helper: each POST handler rejects a blank (after stripping)
input string with a 400 and a collaborator-independent response. -/
theorem blank_rejected_aux (st : Str) (b : ReqBody)
    (h : pyStrip (reqStr b) = []) (c : Collaborator) :
    api_sql c st b = (.badRequest noQueryMsg, st) ∧
    api_sql_csv c st b = (.badRequest noQueryMsg, st) ∧
    api_create_database c st b = (.badRequest dbNameMsg, st) ∧
    api_connect_to c st b = (.badRequest dbNameMsg, st) := by
  have hq : effectiveQuery b = [] := h
  have hp : pyExec c (effectiveQuery b) = .error noQueryMsg := by
    rw [pyExec, hq]
    rfl
  refine ⟨?_, ?_, ?_, ?_⟩
  · simp only [api_sql, hp]
  · simp only [api_sql_csv, hp]
  · simp only [api_create_database, h, List.isEmpty_nil, if_true]
  · simp only [api_connect_to, h, List.isEmpty_nil, if_true]

/-- C4: a query (for `/api/sql` and `/api/sql/csv`) or name (for
create-database and connect) that is empty or whitespace-only is rejected
with a 400 client error; the response is the same for every collaborator,
i.e. the collaborator is never invoked. -/
theorem blank_input_rejected (st : Str) (b : ReqBody)
    (h : pyStrip (reqStr b) = []) (c : Collaborator) :
    api_sql c st b = (.badRequest noQueryMsg, st) ∧
    api_sql_csv c st b = (.badRequest noQueryMsg, st) ∧
    api_create_database c st b = (.badRequest dbNameMsg, st) ∧
    api_connect_to c st b = (.badRequest dbNameMsg, st) :=
  blank_rejected_aux st b h c

/-- C4 witness: a whitespace-only input string. -/
theorem blank_input_rejected_witness :
    api_sql collabStub [] (.field "   ".toList) = (.badRequest noQueryMsg, []) ∧
    api_sql_csv collabStub [] (.field "   ".toList) = (.badRequest noQueryMsg, []) ∧
    api_create_database collabStub [] (.field "   ".toList) =
      (.badRequest dbNameMsg, []) ∧
    api_connect_to collabStub [] (.field "   ".toList) =
      (.badRequest dbNameMsg, []) :=
  blank_input_rejected [] (.field "   ".toList) (by decide) collabStub

/-- C8: a POST whose body is absent/invalid JSON, or whose expected field is
missing or null, is handled exactly like the empty string: 400 client error,
identical response for every collaborator (the collaborator is never
invoked). -/
theorem degenerate_body_like_empty (st : Str) (c : Collaborator) (b : ReqBody)
    (h : b = .badJson ∨ b = .missingField ∨ b = .nullField) :
    (api_sql c st b = api_sql c st (.field []) ∧
      api_sql c st b = (.badRequest noQueryMsg, st)) ∧
    (api_sql_csv c st b = api_sql_csv c st (.field []) ∧
      api_sql_csv c st b = (.badRequest noQueryMsg, st)) ∧
    (api_create_database c st b = api_create_database c st (.field []) ∧
      api_create_database c st b = (.badRequest dbNameMsg, st)) ∧
    (api_connect_to c st b = api_connect_to c st (.field []) ∧
      api_connect_to c st b = (.badRequest dbNameMsg, st)) := by
  have hr : reqStr b = [] := by
    rcases h with rfl | rfl | rfl <;> rfl
  have hblank := blank_rejected_aux st b (by rw [hr]; rfl) c
  have hblank0 := blank_rejected_aux st (.field []) (by rfl) c
  exact ⟨⟨hblank.1.trans hblank0.1.symm, hblank.1⟩,
         ⟨hblank.2.1.trans hblank0.2.1.symm, hblank.2.1⟩,
         ⟨hblank.2.2.1.trans hblank0.2.2.1.symm, hblank.2.2.1⟩,
         ⟨hblank.2.2.2.trans hblank0.2.2.2.symm, hblank.2.2.2⟩⟩

/-- C8 witness: an invalid-JSON body against `/api/sql`. -/
theorem degenerate_body_like_empty_witness :
    api_sql collabStub [] .badJson = (.badRequest noQueryMsg, []) :=
  (degenerate_body_like_empty [] collabStub .badJson (Or.inl rfl)).1.2

/-- C6: the process-wide Current Database Selection is mutated only by a
successful connect: every route other than connect leaves it unchanged, a
connect whose collaborator call fails (or whose name is blank) leaves it
unchanged and reports an error, and a successful connect sets it to the
trimmed requested name and answers `{ok: true, current: name}`. -/
theorem current_db_only_connect (c : Collaborator) (st : Str) (r : Req) :
    ((∀ b, r ≠ .connectTo b) → (runReq c st r).2 = st) ∧
    (∀ b, r = .connectTo b →
      (pyStrip (reqStr b) = [] →
         runReq c st r = (.badRequest dbNameMsg, st)) ∧
      (pyStrip (reqStr b) ≠ [] → ∀ e,
         c.connectTo (pyStrip (reqStr b)) = .error e →
         runReq c st r = (.json (errJson e) 400, st)) ∧
      (pyStrip (reqStr b) ≠ [] →
         c.connectTo (pyStrip (reqStr b)) = .ok () →
         runReq c st r =
           (.json (.obj [("ok".toList, .bool true),
                         ("current".toList, .str (pyStrip (reqStr b)))]) 200,
            pyStrip (reqStr b)))) := by
  constructor
  · intro hnc
    cases r with
    | index => rfl
    | listDatabases =>
        rcases h : c.listDatabases with e | ns <;>
          simp [runReq, api_list_databases, h]
    | createDatabase b =>
        by_cases hb : (pyStrip (reqStr b)).isEmpty
        · simp [runReq, api_create_database, hb]
        · rcases h : c.createDatabase (pyStrip (reqStr b)) with e | u <;>
            simp [runReq, api_create_database, hb, h]
    | connectTo b => exact absurd rfl (hnc b)
    | tableSchemas p =>
        rcases h : c.listTableSchemas (p.getD ("public".toList)) with e | m <;>
          simp only [runReq, api_table_schemas, h]
    | sql b =>
        rcases h : pyExec c (effectiveQuery b) with e | ⟨cols, rows, rc, dur⟩ <;>
          simp [runReq, api_sql, h]
    | sqlCsv b =>
        rcases h : pyExec c (effectiveQuery b) with e | ⟨cols, rows, rc, dur⟩ <;>
          simp [runReq, api_sql_csv, h]
    | health =>
        rcases h : c.execute ("SELECT 1".toList) with e | u <;>
          simp only [runReq, healthz, h]
  · rintro b rfl
    refine ⟨?_, ?_, ?_⟩
    · intro h
      simp [runReq, api_connect_to, h]
    · intro hne e h
      have hb : (pyStrip (reqStr b)).isEmpty = false := by
        simp [List.isEmpty_iff, hne]
      simp [runReq, api_connect_to, hb, h]
    · intro hne h
      have hb : (pyStrip (reqStr b)).isEmpty = false := by
        simp [List.isEmpty_iff, hne]
      simp [runReq, api_connect_to, hb, h]

/-- C6 witness: a successful connect sets the selection to the trimmed name. -/
theorem current_db_only_connect_witness :
    runReq collabStub [] (.connectTo (.field "mydb".toList)) =
      (.json (.obj [("ok".toList, .bool true),
                    ("current".toList, .str "mydb".toList)]) 200,
       "mydb".toList) :=
  ((current_db_only_connect collabStub []
      (.connectTo (.field "mydb".toList))).2
    (.field "mydb".toList) rfl).2.2 (by decide) rfl

/-- C7: the health check answers `{ok: true, db: current}` with 200 on probe
success and `{ok: false, error: msg}` with 500 on failure, and it is the only
route that can produce a server-error status: all others answer 200 or 400. -/
theorem healthz_only_server_error (c : Collaborator) (st : Str) :
    (c.execute ("SELECT 1".toList) = .ok () →
      runReq c st .health =
        (.json (.obj [("ok".toList, .bool true),
                      ("db".toList, .str st)]) 200, st)) ∧
    (∀ e, c.execute ("SELECT 1".toList) = .error e →
      runReq c st .health =
        (.json (.obj [("ok".toList, .bool false),
                      ("error".toList, .str e)]) 500, st)) ∧
    (∀ r : Req, r ≠ .health →
      statusOf (runReq c st r).1 = 200 ∨ statusOf (runReq c st r).1 = 400) := by
  refine ⟨?_, ?_, ?_⟩
  · intro h
    simp only [runReq, healthz, h]
  · intro e h
    simp only [runReq, healthz, h]
  · intro r hr
    cases r with
    | index => left; rfl
    | listDatabases =>
        rcases h : c.listDatabases with e | ns <;>
          simp [runReq, api_list_databases, h, statusOf]
    | createDatabase b =>
        by_cases hb : (pyStrip (reqStr b)).isEmpty
        · simp [runReq, api_create_database, hb, statusOf]
        · rcases h : c.createDatabase (pyStrip (reqStr b)) with e | u <;>
            simp [runReq, api_create_database, hb, h, statusOf]
    | connectTo b =>
        by_cases hb : (pyStrip (reqStr b)).isEmpty
        · simp [runReq, api_connect_to, hb, statusOf]
        · rcases h : c.connectTo (pyStrip (reqStr b)) with e | u <;>
            simp [runReq, api_connect_to, hb, h, statusOf]
    | tableSchemas p =>
        rcases h : c.listTableSchemas (p.getD ("public".toList)) with e | m <;>
          simp only [runReq, api_table_schemas, h, statusOf] <;> simp
    | sql b =>
        rcases h : pyExec c (effectiveQuery b) with e | ⟨cols, rows, rc, dur⟩ <;>
          simp [runReq, api_sql, h, statusOf]
    | sqlCsv b =>
        rcases h : pyExec c (effectiveQuery b) with e | ⟨cols, rows, rc, dur⟩ <;>
          simp [runReq, api_sql_csv, h, statusOf]
    | health => exact absurd rfl hr

/-- C7 witness: a failing probe yields the 500 error payload. -/
theorem healthz_only_server_error_witness :
    runReq collabDown [] .health =
      (.json (.obj [("ok".toList, .bool false),
                    ("error".toList, .str "down".toList)]) 500, []) :=
  (healthz_only_server_error collabDown []).2.1 "down".toList rfl

/-- C3 counterexample: the raw input `" SELECT 1"` is accepted (it is not
blank), yet the string handed to the cursor differs from the raw input. -/
theorem executed_query_not_raw :
    effectiveQuery (.field (' ' :: "SELECT 1".toList)) ≠ ' ' :: "SELECT 1".toList ∧
    effectiveQuery (.field (' ' :: "SELECT 1".toList)) ≠ [] := by decide

/-- C3 amended: the string handed to the collaborator for execution is the
raw input SQL with leading and trailing whitespace removed and its interior
unmodified: the raw input decomposes as a whitespace prefix, the executed
string (which neither starts nor ends with whitespace), and a whitespace
suffix; and `/api/sql` treats the raw input exactly like its stripped form. -/
theorem executed_query_is_stripped_raw (s : Str) :
    (∃ pre suf, s = pre ++ effectiveQuery (.field s) ++ suf ∧
      (∀ ch ∈ pre, pyIsSpace ch = true) ∧ (∀ ch ∈ suf, pyIsSpace ch = true)) ∧
    (∀ a t, effectiveQuery (.field s) = a :: t → pyIsSpace a = false) ∧
    (∀ a, (effectiveQuery (.field s)).getLast? = Option.some a →
      pyIsSpace a = false) ∧
    (∀ (c : Collaborator) (st : Str),
      api_sql c st (.field s) =
        api_sql c st (.field (effectiveQuery (.field s)))) := by
  have he : effectiveQuery (.field s) = pyStrip s := by
    rw [effectiveQuery, reqStr_field]
  refine ⟨?_, ?_, ?_, ?_⟩
  · rw [he]
    exact pyStrip_decomp s
  · intro a t h
    exact pyStrip_head_false (he ▸ h)
  · intro a h
    exact pyStrip_getLast_false (he ▸ h)
  · intro c st
    have harg : effectiveQuery (.field (effectiveQuery (.field s)))
        = effectiveQuery (.field s) := by
      rw [he, effectiveQuery, reqStr_field, pyStrip_idem]
    simp only [api_sql, harg]

/-- C3 witness for the amended statement, at the input `" SELECT 1"`. -/
theorem executed_query_is_stripped_raw_witness :
    pyIsSpace 'S' = false ∧
    api_sql collabStub [] (.field (' ' :: "SELECT 1".toList)) =
      api_sql collabStub []
        (.field (effectiveQuery (.field (' ' :: "SELECT 1".toList)))) :=
  ⟨(executed_query_is_stripped_raw (' ' :: "SELECT 1".toList)).2.1
      'S' "ELECT 1".toList (by decide),
   (executed_query_is_stripped_raw (' ' :: "SELECT 1".toList)).2.2.2
      collabStub []⟩

/-- Spec-side decoder for standard CSV quoting (RFC 4180): collapse each
doubled quote character into one. Used only to state that the writer's
escaping is lossless. -/
def csvUndouble : Str → Str
  | [] => []
  | c :: cs =>
      if c = '"' ∧ cs.head? = Option.some '"' then c :: csvUndouble cs.tail
      else c :: csvUndouble cs
termination_by s => s.length
decreasing_by
  all_goals simp only [List.length_tail, List.length_cons]
  all_goals omega

/-- Spec-side decoder for one CSV field: a field starting with a quote is
unwrapped and its doubled quotes collapsed; any other field is literal. -/
def csvFieldDecode (s : Str) : Str :=
  if s.head? = Option.some '"' then csvUndouble ((s.drop 1).dropLast) else s

theorem csvUndouble_nil : csvUndouble [] = [] := by
  rw [csvUndouble.eq_def]

theorem csvUndouble_cons (c : Char) (cs : Str) :
    csvUndouble (c :: cs) =
      if c = '"' ∧ cs.head? = Option.some '"' then c :: csvUndouble cs.tail
      else c :: csvUndouble cs := by
  rw [csvUndouble.eq_def]

theorem csvUndouble_csvEscape (s : Str) : csvUndouble (csvEscape s) = s := by
  induction s with
  | nil => rw [show csvEscape [] = [] from rfl, csvUndouble_nil]
  | cons c cs ih =>
    by_cases hc : c = '"'
    · subst hc
      have hesc : csvEscape ('"' :: cs) = '"' :: '"' :: csvEscape cs := by
        simp [csvEscape]
      rw [hesc, csvUndouble_cons]
      simp [ih]
    · simp only [csvEscape, if_neg hc]
      rw [csvUndouble_cons, if_neg (fun hck => hc hck.1), ih]

theorem csvFieldDecode_csvField (s : Str) : csvFieldDecode (csvField s) = s := by
  by_cases h : s.any csvSpecial
  · simp only [csvField, if_pos h, csvFieldDecode, List.head?_cons, if_pos rfl,
      List.drop_succ_cons, List.drop_zero, List.dropLast_concat]
    exact csvUndouble_csvEscape s
  · simp only [csvField, if_neg h, csvFieldDecode]
    cases s with
    | nil => rfl
    | cons c cs =>
      have hc : c ≠ '"' := by
        intro hq
        subst hq
        exact h (by simp [csvSpecial])
      rw [if_neg (by simp [hc])]

theorem length_le_csvEscape (s : Str) : s.length ≤ (csvEscape s).length := by
  induction s with
  | nil => simp [csvEscape]
  | cons c cs ih =>
    by_cases hc : c = '"' <;> simp [csvEscape, hc] <;> omega

theorem length_le_csvField (s : Str) : s.length ≤ (csvField s).length := by
  by_cases h : s.any csvSpecial
  · simp only [csvField, if_pos h, List.length_cons, List.length_append,
      List.length_singleton]
    have := length_le_csvEscape s
    omega
  · simp only [csvField, if_neg h, le_refl]

/-- The response of `api_sql_csv` on a request whose query is accepted and
whose execution succeeds, shared shape. -/
theorem api_sql_csv_ok_eq (c : Collaborator) (st : Str) (b : ReqBody)
    {desc : Option (List Str)} {fetched : List (List PyVal)} {rc : Int}
    (hq : effectiveQuery b ≠ [])
    (hexec : c.execCursor (effectiveQuery b) = .ok (desc, fetched, rc)) :
    api_sql_csv c st b =
      (.file { body := csvBody (desc.getD []) (if descTruthy desc then fetched else [])
               mimetype := "text/csv".toList
               asAttachment := true
               downloadName := "query_results.csv".toList }, st) := by
  have hp : pyExec c (effectiveQuery b)
      = .ok (desc.getD [], if descTruthy desc then fetched else [], rc, c.elapsedMs) := by
    rw [pyExec_effectiveQuery c b hq, hexec]
  simp only [api_sql_csv, hp]

/-- C2: for every successful `/api/sql/csv` request, the response is a file
attachment named `query_results.csv` with content type `text/csv`; its body
has the column-header record if and only if the column list is non-empty,
followed by exactly one CSV record per result row built from the full
(unclipped) stringified cells; the standard quoting/escaping is lossless
(every field decodes back to the exact value) and never shortens a value. -/
theorem api_sql_csv_untruncated (c : Collaborator) (st : Str) (b : ReqBody)
    (desc : Option (List Str)) (fetched : List (List PyVal)) (rc : Int)
    (hq : effectiveQuery b ≠ [])
    (hexec : c.execCursor (effectiveQuery b) = .ok (desc, fetched, rc)) :
    api_sql_csv c st b =
      (.file { body := csvBody (desc.getD []) (if descTruthy desc then fetched else [])
               mimetype := "text/csv".toList
               asAttachment := true
               downloadName := "query_results.csv".toList }, st) ∧
    (∀ (cols : List Str) (rows : List (List PyVal)),
      csvBody cols rows =
        (if cols = [] then [] else csvRecord cols) ++
          (rows.map fun r => csvRecord (r.map cellStr)).flatten) ∧
    (∀ f : Str, csvFieldDecode (csvField f) = f) ∧
    (∀ f : Str, f.length ≤ (csvField f).length) := by
  refine ⟨api_sql_csv_ok_eq c st b hq hexec, ?_, csvFieldDecode_csvField,
    length_le_csvField⟩
  intro cols rows
  cases cols <;> simp [csvBody]

/-- C2 witness: `SELECT 1` against the stub: one header line, one row line,
attachment metadata. -/
theorem api_sql_csv_untruncated_witness :
    api_sql_csv collabStub [] (.field "SELECT 1".toList) =
      (.file { body := ['n', '\r', '\n', '1', '\r', '\n']
               mimetype := "text/csv".toList
               asAttachment := true
               downloadName := "query_results.csv".toList }, []) :=
  (api_sql_csv_untruncated collabStub [] (.field "SELECT 1".toList)
    (Option.some [['n']]) [[PyVal.obj ['1']]] 1 (by decide) rfl).1

/-! ### Helper lemmas: the lexicographic order used by `sorted` -/

theorem strLt_cons (x y : Char) (xs ys : Str) :
    strLt (x :: xs) (y :: ys) = true ↔ x < y ∨ (x = y ∧ strLt xs ys = true) := by
  by_cases h1 : x < y
  · simp [strLt, h1]
  · by_cases h2 : x = y
    · simp [strLt, h1, h2]
    · simp [strLt, h1, h2]

theorem strLt_trans : ∀ a b c : Str, strLt a b = true → strLt b c = true →
    strLt a c = true := by
  intro a
  induction a with
  | nil =>
    intro b c hab hbc
    cases b with
    | nil => simp [strLt] at hab
    | cons y ys =>
      cases c with
      | nil => simp [strLt] at hbc
      | cons z zs => rfl
  | cons x xs ih =>
    intro b c hab hbc
    cases b with
    | nil => simp [strLt] at hab
    | cons y ys =>
      cases c with
      | nil => simp [strLt] at hbc
      | cons z zs =>
        rw [strLt_cons] at hab hbc ⊢
        rcases hab with h1 | ⟨rfl, h1⟩
        · rcases hbc with h2 | ⟨rfl, h2⟩
          · exact Or.inl (lt_trans h1 h2)
          · exact Or.inl h1
        · rcases hbc with h2 | ⟨rfl, h2⟩
          · exact Or.inl h2
          · exact Or.inr ⟨rfl, ih ys zs h1 h2⟩

theorem strLt_asymm : ∀ a b : Str, strLt a b = true → strLt b a = true → False := by
  intro a
  induction a with
  | nil =>
    intro b hab hba
    cases b with
    | nil => simp [strLt] at hab
    | cons y ys => simp [strLt] at hba
  | cons x xs ih =>
    intro b hab hba
    cases b with
    | nil => simp [strLt] at hab
    | cons y ys =>
      rw [strLt_cons] at hab hba
      rcases hab with h1 | ⟨rfl, h1⟩
      · rcases hba with h2 | ⟨rfl, h2⟩
        · exact absurd h2 (asymm h1)
        · exact absurd h1 (lt_irrefl _)
      · rcases hba with h2 | ⟨h2eq, h2⟩
        · exact absurd h2 (lt_irrefl _)
        · exact ih ys h1 h2

theorem strLe_trans (a b c : Str) (h1 : strLe a b = true) (h2 : strLe b c = true) :
    strLe a c = true := by
  simp only [strLe, Bool.or_eq_true, decide_eq_true_eq] at h1 h2 ⊢
  rcases h1 with h1 | rfl
  · rcases h2 with h2 | rfl
    · exact Or.inl (strLt_trans a b c h1 h2)
    · exact Or.inl h1
  · exact h2

theorem strLe_cons_same (x : Char) (xs ys : Str) :
    strLe (x :: xs) (x :: ys) = strLe xs ys := by
  simp [strLe, strLt, lt_irrefl]

theorem strLe_total (a b : Str) : (strLe a b || strLe b a) = true := by
  induction a generalizing b with
  | nil =>
    cases b <;> simp [strLe, strLt]
  | cons x xs ih =>
    cases b with
    | nil => simp [strLe, strLt]
    | cons y ys =>
      rcases lt_trichotomy x y with h | rfl | h
      · have hx : strLt (x :: xs) (y :: ys) = true := by
          rw [strLt_cons]; exact Or.inl h
        simp [strLe, hx]
      · rw [strLe_cons_same, strLe_cons_same]
        exact ih ys
      · have hx : strLt (y :: ys) (x :: xs) = true := by
          rw [strLt_cons]; exact Or.inl h
        simp [strLe, hx]

theorem itemLe_trans (a b c : Str × Str) (h1 : itemLe a b = true)
    (h2 : itemLe b c = true) : itemLe a c = true :=
  strLe_trans _ _ _ h1 h2

theorem itemLe_total (a b : Str × Str) : (itemLe a b || itemLe b a) = true :=
  strLe_total a.1 b.1

theorem pairwise_strict_of_le_nodup (l : List (Str × Str))
    (hle : l.Pairwise (fun a b => itemLe a b = true))
    (hnd : (l.map Prod.fst).Nodup) :
    l.Pairwise (fun a b => strLt a.1 b.1 = true) := by
  have hnd' : l.Pairwise (fun a b => a.1 ≠ b.1) := List.pairwise_map.mp hnd
  refine (hle.and hnd').imp ?_
  intro a b hab
  rcases hab with ⟨hab1, hab2⟩
  simp only [itemLe, strLe, Bool.or_eq_true, decide_eq_true_eq] at hab1
  rcases hab1 with h | h
  · exact h
  · exact absurd h hab2

/-- C5: `/api/table-schemas` answers with the collaborator's mapping sorted
by table name: the listed names are pairwise in lexicographic order, the
item list is a permutation of the mapping (so the `ddl` object associates
each listed name with exactly the DDL text the collaborator returned), and —
for a mapping with distinct table names — the output does not depend on the
ordering in which the collaborator returned the mapping. -/
theorem table_schemas_sorted (c : Collaborator) (st : Str) (p : Option Str)
    (mapping : List (Str × Str))
    (h : c.listTableSchemas (p.getD ("public".toList)) = .ok mapping) :
    api_table_schemas c st p =
      (.json (.obj
        [("schema".toList, .str (p.getD ("public".toList))),
         ("tables".toList,
          .arr ((mapping.mergeSort itemLe).map fun q => .str q.1)),
         ("ddl".toList,
          .obj ((mapping.mergeSort itemLe).map fun q => (q.1, .str q.2)))]) 200,
       st) ∧
    ((mapping.mergeSort itemLe).map Prod.fst).Pairwise
      (fun a b => strLe a b = true) ∧
    (mapping.mergeSort itemLe).Perm mapping ∧
    (∀ nm dd, (nm, dd) ∈ mapping ↔ (nm, dd) ∈ mapping.mergeSort itemLe) ∧
    (∀ mapping' : List (Str × Str), mapping'.Perm mapping →
      (mapping.map Prod.fst).Nodup →
      mapping'.mergeSort itemLe = mapping.mergeSort itemLe) := by
  refine ⟨?_, ?_, List.mergeSort_perm mapping itemLe, ?_, ?_⟩
  · simp only [api_table_schemas, h]
  · rw [List.pairwise_map]
    exact List.sorted_mergeSort itemLe_trans itemLe_total mapping
  · intro nm dd
    exact ((List.mergeSort_perm mapping itemLe).mem_iff).symm
  · intro mapping' hperm hnodup
    have hperm2 : (mapping'.mergeSort itemLe).Perm (mapping.mergeSort itemLe) :=
      ((List.mergeSort_perm mapping' itemLe).trans hperm).trans
        (List.mergeSort_perm mapping itemLe).symm
    have hn2 : ((mapping.mergeSort itemLe).map Prod.fst).Nodup :=
      (((List.mergeSort_perm mapping itemLe).map Prod.fst).nodup_iff).mpr hnodup
    have hn1 : ((mapping'.mergeSort itemLe).map Prod.fst).Nodup :=
      ((((List.mergeSort_perm mapping' itemLe).trans hperm).map
        Prod.fst).nodup_iff).mpr hnodup
    have hs1 := List.sorted_mergeSort itemLe_trans itemLe_total mapping'
    have hs2 := List.sorted_mergeSort itemLe_trans itemLe_total mapping
    haveI : IsAntisymm (Str × Str) (fun a b => strLt a.1 b.1 = true) :=
      ⟨fun a b hab hba => (strLt_asymm _ _ hab hba).elim⟩
    exact List.eq_of_perm_of_sorted hperm2
      (pairwise_strict_of_le_nodup _ hs1 hn1)
      (pairwise_strict_of_le_nodup _ hs2 hn2)

/-- A collaborator returning two tables in reverse name order. -/
def collabTables : Collaborator where
  listDatabases := .ok []
  createDatabase := fun _ => .ok ()
  connectTo := fun _ => .ok ()
  listTableSchemas := fun _ => .ok [(['b'], ['B']), (['a'], ['A'])]
  execCursor := fun _ => .ok (Option.none, [], 0)
  execute := fun _ => .ok ()
  elapsedMs := 0

/-- C5 witness: a two-table mapping given in reverse order, plus the
ordering-independence part at a permuted mapping. -/
theorem table_schemas_sorted_witness :
    api_table_schemas collabTables [] Option.none =
      (.json (.obj
        [("schema".toList, .str "public".toList),
         ("tables".toList,
          .arr (([(['b'], ['B']), (['a'], ['A'])].mergeSort itemLe).map
            fun q => Json.str q.1)),
         ("ddl".toList,
          .obj (([(['b'], ['B']), (['a'], ['A'])].mergeSort itemLe).map
            fun q => (q.1, Json.str q.2)))]) 200, []) ∧
    [(['a'], ['A']), (['b'], ['B'])].mergeSort itemLe =
      [(['b'], ['B']), (['a'], ['A'])].mergeSort itemLe :=
  ⟨(table_schemas_sorted collabTables [] Option.none
      [(['b'], ['B']), (['a'], ['A'])] rfl).1,
   (table_schemas_sorted collabTables [] Option.none
      [(['b'], ['B']), (['a'], ['A'])] rfl).2.2.2.2
      [(['a'], ['A']), (['b'], ['B'])] (by decide) (by decide)⟩
